import Mathlib

/-!
Verification of the taperecorder library: a dynamic-protocol interception
layer (descriptors, call stand-ins, type-level checks) plus an
ordered-expectation reaction queue.  Python values are embedded as `PyVal`,
the `Action` namedtuple as a structure, exceptions as `PyErr`, and the
stateful `AssertingReaction` from taperecorder/tests.py as explicit state
passing.  Python callables stored in the expectation queue are pure, so a
zero-argument callback is embedded as its outcome: an `Except PyErr RVal`.
-/

namespace Taperecorder

/-- Embedding of the Python values that flow through the interception layer:
integers, strings, booleans, None, lists of strings (the only list payloads
the repository exercises), plain objects (identified by their numeric
identity, as returned by id), and classes (a name plus an identity). -/
inductive PyVal where
  | int : Int → PyVal
  | str : String → PyVal
  | bool : Bool → PyVal
  | none : PyVal
  | strList : List String → PyVal
  | obj : Nat → PyVal
  | cls : String → Nat → PyVal
  deriving DecidableEq, Repr

/-- The numeric identity of a value, as Python id returns for objects and
classes.  Only objects and classes carry an identity in this model. -/
def PyVal.pyId : PyVal → Nat
  | .obj i => i
  | .cls _ i => i
  | _ => 0

/-- The name attribute of a class value, as owner.__name__ reads it. -/
def PyVal.clsName : PyVal → String
  | .cls n _ => n
  | _ => ""

/-- Embedding of the Action namedtuple from taperecorder/__init__.py line 7:
origin kind, operation name (None for the type-level checks), positional
arguments, named arguments.  kwargs is an association list standing for a
Python dict. -/
structure Action where
  origin : String
  name : Option String
  args : List PyVal
  kwargs : List (String × PyVal)
  deriving DecidableEq, Repr

/-- Insert one key-value pair into a key-sorted association list. -/
def insertByKey (p : String × PyVal) : List (String × PyVal) → List (String × PyVal)
  | [] => [p]
  | q :: qs => if p.1 ≤ q.1 then p :: q :: qs else q :: insertByKey p qs

/-- Canonical form of a kwargs dict: the association list sorted by key.
Python dict equality ignores insertion order, so two dicts are equal exactly
when their canonical forms coincide (keys in a dict are unique). -/
def kwargsCanon : List (String × PyVal) → List (String × PyVal)
  | [] => []
  | p :: ps => insertByKey p (kwargsCanon ps)

/-- Python structural equality of two Action records, as the per-field
assertEqual calls in AssertingReaction.to test it: all four fields must
agree, with dict equality (insertion-order independent) on kwargs. -/
def Action.pyEq (a b : Action) : Prop :=
  a.origin = b.origin ∧ a.name = b.name ∧ a.args = b.args ∧
    kwargsCanon a.kwargs = kwargsCanon b.kwargs

instance (a b : Action) : Decidable (Action.pyEq a b) := by
  unfold Action.pyEq; infer_instance

/-- Embedding of the Python exceptions that the claims distinguish:
the IndexError that deque.popleft raises on an empty queue, the
AssertionError that the assertEqual calls raise on an action mismatch
(carrying the expected and the actual action, which the diagnostic names),
AttributeError (thrown by callbacks to drive protocol fallback), and any
other exception a callback may raise, tagged by name. -/
inductive PyErr where
  | indexEmptyQueue : PyErr
  | assertMismatch (expected actual : Action) : PyErr
  | attributeError : PyErr
  | exc (tag : String) : PyErr
  deriving DecidableEq, Repr

/-- A value handed back through the interception layer: a plain Python
value, a ReactingCall object (carrying the operation name it was built with
and the identity of the reaction it is bound to), or a zero-argument
callable that returns a fixed string (the lambda that
ReprReactingDescriptor.__get__ builds when use_real_repr is set). -/
inductive RVal where
  | val : PyVal → RVal
  | reactingCall (name : Option String) (rid : Nat) : RVal
  | strThunk (s : String) : RVal
  deriving DecidableEq, Repr

/-- Embedding of AssertingReaction from taperecorder/tests.py lines 17-28:
rid is the identity of the reaction object, chain is the deque of
(expected action, callback outcome) pairs, auto_descriptors the toggle. -/
structure AssertingReaction where
  rid : Nat
  chain : List (Action × Except PyErr RVal)
  auto_descriptors : Bool
  deriving Repr

/-- AssertingReaction.__init__: the chain starts empty and auto_descriptors
defaults to False.  The testcase argument only supplies assertEqual and has
no counterpart here. -/
def AssertingReaction.init (rid : Nat) : AssertingReaction :=
  { rid := rid, chain := [], auto_descriptors := false }

/-- AssertingReaction.add (tests.py lines 30-34): append one
(action, callback) expectation to the chain. -/
def AssertingReaction.add (self : AssertingReaction) (action : Action)
    (callback : Except PyErr RVal) : AssertingReaction :=
  { self with chain := self.chain ++ [(action, callback)] }

/-- The membership test on tests.py line 43: is the origin of the action one
of the three descriptor kinds. -/
def isDescriptorOrigin (a : Action) : Bool :=
  a.origin == "__get__" || a.origin == "__set__" || a.origin == "__delete__"

/-- AssertingReaction.to (tests.py lines 36-55).  If auto_descriptors is
set and the action origin is a descriptor kind, return a fresh ReactingCall
built from the action name and self, leaving the chain untouched.
Otherwise popleft the chain -- IndexError when it is empty -- then compare
the received action with the popped expectation field by field
(AssertionError carrying both on mismatch) and finally return the outcome
of the stored callback.  The popped head is gone in every non-auto branch
that reaches the popleft, matching the mutation order of the source. -/
def AssertingReaction.to (self : AssertingReaction) (action : Action) :
    Except PyErr RVal × AssertingReaction :=
  if self.auto_descriptors && isDescriptorOrigin action then
    (.ok (.reactingCall action.name self.rid), self)
  else
    match self.chain with
    | [] => (.error .indexEmptyQueue, self)
    | (expected_action, callback) :: rest =>
      if Action.pyEq action expected_action then
        (callback, { self with chain := rest })
      else
        (.error (.assertMismatch expected_action action), { self with chain := rest })

/-- Add a whole list of expectations in order, as a test does with repeated
add calls. -/
def AssertingReaction.addAll (self : AssertingReaction)
    (exps : List (Action × Except PyErr RVal)) : AssertingReaction :=
  exps.foldl (fun s p => s.add p.1 p.2) self

/-- Deliver a list of actions in order through to, collecting the outcome
of each call and the final reaction state. -/
def AssertingReaction.toAll (self : AssertingReaction) :
    List Action → List (Except PyErr RVal) × AssertingReaction
  | [] => ([], self)
  | a :: rest =>
    let r := self.to a
    let rs := r.2.toAll rest
    (r.1 :: rs.1, rs.2)

/-- The reaction capability seen by the interception layer: one operation,
to, taking an Action to a result or a propagated exception.  The stateless
interception components (descriptors, ReactingCall, the metaclass checks)
only ever invoke this single entry point. -/
def Reaction : Type := Action → Except PyErr RVal

/-- Embedding of ReactingDescriptor (taperecorder/__init__.py lines 13-32):
an attribute name plus the bound reaction. -/
structure ReactingDescriptor where
  name : String
  reaction : Reaction

/-- ReactingDescriptor.__get__: build a get-origin Action over
(instance, owner) with empty kwargs and forward it to the reaction. -/
def ReactingDescriptor.get (self : ReactingDescriptor) (inst owner : PyVal) :
    Except PyErr RVal :=
  self.reaction (Action.mk "__get__" (some self.name) [inst, owner] [])

/-- ReactingDescriptor.__set__: build a set-origin Action over
(instance, value) with empty kwargs and forward it to the reaction. -/
def ReactingDescriptor.set (self : ReactingDescriptor) (inst value : PyVal) :
    Except PyErr RVal :=
  self.reaction (Action.mk "__set__" (some self.name) [inst, value] [])

/-- ReactingDescriptor.__delete__: build a delete-origin Action over
(instance,) with empty kwargs and forward it to the reaction. -/
def ReactingDescriptor.delete (self : ReactingDescriptor) (inst : PyVal) :
    Except PyErr RVal :=
  self.reaction (Action.mk "__delete__" (some self.name) [inst] [])

/-- The string the ReprReactingDescriptor lambda produces on line 42 of
taperecorder/__init__.py: the percent-format of the owner class name and the
hash-zero-hex format of the instance identity. -/
def realReprString (ownerName : String) (instId : Nat) : String :=
  "<" ++ ownerName ++ " instance at 0x" ++ String.mk (Nat.toDigits 16 instId) ++ ">"

/-- ReprReactingDescriptor.__get__ (lines 35-44): the subclass fixes the
attribute name to __repr__ and consults the module-level use_real_repr flag
on every read.  When the flag is set it returns a zero-argument lambda
producing the synthetic identity string without building any Action;
otherwise it defers to the plain ReactingDescriptor get.  The global flag is
passed explicitly since the embedding has no mutable globals. -/
def ReprReactingDescriptor.get (reaction : Reaction) (use_real_repr : Bool)
    (inst owner : PyVal) : Except PyErr RVal :=
  if use_real_repr then
    .ok (.strThunk (realReprString owner.clsName inst.pyId))
  else
    (ReactingDescriptor.mk "__repr__" reaction).get inst owner

/-- Embedding of ReactingCall (taperecorder/__init__.py lines 47-58): an
operation name plus the bound reaction.  The name is an Option because
AssertingReaction.to builds ReactingCall objects from action.name, which is
None for the type-level check actions. -/
structure ReactingCall where
  name : Option String
  reaction : Reaction

/-- ReactingCall.__call__: build a call-origin Action from the stored name
and the received arguments and forward it to the reaction. -/
def ReactingCall.call (self : ReactingCall) (args : List PyVal)
    (kwargs : List (String × PyVal)) : Except PyErr RVal :=
  self.reaction (Action.mk "__call__" self.name args kwargs)

/-- ObserverMeta.__instancecheck__ (taperecorder/__init__.py lines 186-188):
build an instance-check Action with no name and the checked object as sole
argument, and return whatever the reaction answers. -/
def ObserverMeta.instancecheck (reaction : Reaction) (checked : PyVal) :
    Except PyErr RVal :=
  reaction (Action.mk "__instancecheck__" Option.none [checked] [])

/-- ObserverMeta.__subclasscheck__ (lines 190-192): build a subclass-check
Action with no name and the checked class as sole argument, and return
whatever the reaction answers. -/
def ObserverMeta.subclasscheck (reaction : Reaction) (checked : PyVal) :
    Except PyErr RVal :=
  reaction (Action.mk "__subclasscheck__" Option.none [checked] [])

theorem Action.pyEq_refl (a : Action) : Action.pyEq a a :=
  ⟨rfl, rfl, rfl, rfl⟩

theorem addAll_mk (rid : Nat) (b : Bool)
    (c exps : List (Action × Except PyErr RVal)) :
    (AssertingReaction.mk rid c b).addAll exps =
      AssertingReaction.mk rid (c ++ exps) b := by
  induction exps generalizing c with
  | nil => simp [AssertingReaction.addAll]
  | cons p ps ih =>
    simpa [AssertingReaction.addAll, AssertingReaction.add] using ih (c ++ [p])

theorem toAll_matched (rid : Nat)
    (exps rest : List (Action × Except PyErr RVal)) :
    (AssertingReaction.mk rid (exps ++ rest) false).toAll (exps.map Prod.fst) =
      (exps.map Prod.snd, AssertingReaction.mk rid rest false) := by
  induction exps with
  | nil => simp [AssertingReaction.toAll]
  | cons p ps ih =>
    obtain ⟨a, cb⟩ := p
    simp [AssertingReaction.toAll, AssertingReaction.to, Action.pyEq_refl, ih]

theorem toAll_append (s : AssertingReaction) (xs ys : List Action) :
    s.toAll (xs ++ ys) =
      ((s.toAll xs).1 ++ ((s.toAll xs).2.toAll ys).1,
        ((s.toAll xs).2.toAll ys).2) := by
  induction xs generalizing s with
  | nil => simp [AssertingReaction.toAll]
  | cons a as ih => simp [AssertingReaction.toAll, ih]

/-- Claim C1: for every expectation sequence E = [(a1,c1),...,(an,cn)] added
in order to an ordered-expectation reaction and every action sequence
A = [a1,...,an] delivered in the same order via to, each call to(ai)
returns the value of ci() and after the n-th call the expectation queue is
empty. -/
theorem C1_ordered_replay (rid : Nat)
    (exps : List (Action × Except PyErr RVal)) :
    ((AssertingReaction.init rid).addAll exps).toAll (exps.map Prod.fst) =
      (exps.map Prod.snd, AssertingReaction.mk rid [] false) := by
  have h1 : (AssertingReaction.init rid).addAll exps =
      AssertingReaction.mk rid (exps ++ []) false := by
    simpa [AssertingReaction.init] using addAll_mk rid false [] exps
  rw [h1, toAll_matched]

/-- Claim C2: for every expectation sequence E and every action sequence
that first deviates from E at position i (the first i delivered actions are
the first i expected ones, the next delivered action b fails the four-field
structural comparison against the expectation at i), the i-th call to to
fails with the AssertionError mismatch diagnostic carrying the expected
action and the received action. -/
theorem C2_first_deviation_mismatch (rid : Nat)
    (exps : List (Action × Except PyErr RVal)) (i : Nat)
    (hi : i < exps.length) (b : Action)
    (hb : ¬ Action.pyEq b exps[i].1) :
    ((AssertingReaction.init rid).addAll exps).toAll
        ((exps.take i).map Prod.fst ++ [b]) =
      ((exps.take i).map Prod.snd ++
          [Except.error (PyErr.assertMismatch exps[i].1 b)],
        AssertingReaction.mk rid (exps.drop (i + 1)) false) := by
  have h1 : (AssertingReaction.init rid).addAll exps =
      AssertingReaction.mk rid (exps.take i ++ exps.drop i) false := by
    simpa [AssertingReaction.init] using addAll_mk rid false [] exps
  rw [h1, toAll_append, toAll_matched]
  have h2 : exps.drop i = exps[i] :: exps.drop (i + 1) :=
    List.drop_eq_getElem_cons hi
  rw [h2]
  simp [AssertingReaction.toAll, AssertingReaction.to, hb]

/-- Claim C3: for every reaction state with an empty expectation queue and
every action a, calling to(a) fails with the empty-queue error (the
IndexError of popleft on an empty deque), regardless of the auto-service
toggle, except when the origin of a is one of the three descriptor kinds
and auto-service is enabled. -/
theorem C3_empty_queue_error (s : AssertingReaction) (a : Action)
    (hempty : s.chain = [])
    (hnoauto : ¬(s.auto_descriptors = true ∧ isDescriptorOrigin a = true)) :
    s.to a = (Except.error PyErr.indexEmptyQueue, s) := by
  have hb : (s.auto_descriptors && isDescriptorOrigin a) = false := by
    cases h1 : s.auto_descriptors <;> cases h2 : isDescriptorOrigin a <;>
      simp_all
  unfold AssertingReaction.to
  simp [hb, hempty]

/-- Claim C4: when auto-service is enabled and to receives an action whose
origin is one of the three descriptor kinds, to returns a fresh
ReactingCall carrying the name of that action and bound to this same
reaction (its identity rid), and the reaction state -- in particular the
expectation queue -- is returned untouched, whatever the queue holds. -/
theorem C4_auto_service_descriptor (s : AssertingReaction) (a : Action)
    (hauto : s.auto_descriptors = true) (hdesc : isDescriptorOrigin a = true) :
    s.to a = (Except.ok (RVal.reactingCall a.name s.rid), s) := by
  unfold AssertingReaction.to
  simp [hauto, hdesc]

/-- Claim C9: to is not atomic on failure.  For every queue whose head
expectation differs from the received action (and that head is reached, no
auto-service short-circuit), the failing call has popped the head before
the comparison: the mismatch error is returned with the queue already
holding one fewer entry, namely exactly the entries after the mismatched
head, so any subsequent to is compared against the following expectation. -/
theorem C9_mismatch_pops_head (s : AssertingReaction) (e : Action)
    (cb : Except PyErr RVal) (rest : List (Action × Except PyErr RVal))
    (a : Action) (hchain : s.chain = (e, cb) :: rest)
    (hnoauto : ¬(s.auto_descriptors = true ∧ isDescriptorOrigin a = true))
    (hne : ¬ Action.pyEq a e) :
    s.to a = (Except.error (PyErr.assertMismatch e a), { s with chain := rest }) ∧
    (s.to a).2.chain.length + 1 = s.chain.length := by
  have hb : (s.auto_descriptors && isDescriptorOrigin a) = false := by
    cases h1 : s.auto_descriptors <;> cases h2 : isDescriptorOrigin a <;>
      simp_all
  have hmain :
      s.to a = (Except.error (PyErr.assertMismatch e a), { s with chain := rest }) := by
    unfold AssertingReaction.to
    simp [hb, hchain, hne]
  refine ⟨hmain, ?_⟩
  rw [hmain, hchain]
  simp

/-- Claim C5: the three descriptor interception points build exactly the
Actions of the source -- get with origin __get__ over (receiver, owner),
set with origin __set__ over (receiver, value), delete with origin
__delete__ over (receiver,), all with the attribute name and empty kwargs
-- forward them to the bound reaction, and yield the reaction answer as
their own result. -/
theorem C5_descriptor_actions (d : ReactingDescriptor)
    (inst owner value : PyVal) :
    d.get inst owner =
      d.reaction (Action.mk "__get__" (some d.name) [inst, owner] []) ∧
    d.set inst value =
      d.reaction (Action.mk "__set__" (some d.name) [inst, value] []) ∧
    d.delete inst =
      d.reaction (Action.mk "__delete__" (some d.name) [inst] []) :=
  ⟨rfl, rfl, rfl⟩

/-- Claim C6: with the identity-bypass flag enabled, reading the
representation attribute never produces an Action and never touches the
reaction (formalised as independence of the result from the reaction, for
any two reactions), and the value obtained is the zero-argument callable
yielding the synthetic representation string, which embeds the owner class
name and the numeric identity of the instance. -/
theorem C6_identity_bypass (r1 r2 : Reaction) (inst owner : PyVal) :
    ReprReactingDescriptor.get r1 true inst owner =
      ReprReactingDescriptor.get r2 true inst owner ∧
    ReprReactingDescriptor.get r1 true inst owner =
      Except.ok (RVal.strThunk (realReprString owner.clsName inst.pyId)) ∧
    realReprString owner.clsName inst.pyId =
      "<" ++ owner.clsName ++ " instance at 0x" ++
        String.mk (Nat.toDigits 16 inst.pyId) ++ ">" :=
  ⟨rfl, rfl, rfl⟩

/-- Claim C7: the type-level instance-check and subclass-check hooks each
build an Action with its own distinct origin kind, a null operation name,
the checked object as the sole positional argument and empty kwargs, route
it to the bound reaction, and return the reaction answer as the outcome of
the check. -/
theorem C7_type_checks (r : Reaction) (x y : PyVal) :
    ObserverMeta.instancecheck r x =
      r (Action.mk "__instancecheck__" Option.none [x] []) ∧
    ObserverMeta.subclasscheck r y =
      r (Action.mk "__subclasscheck__" Option.none [y] []) ∧
    (Action.mk "__instancecheck__" Option.none [x] []).origin ≠
      (Action.mk "__subclasscheck__" Option.none [y] []).origin :=
  ⟨rfl, rfl, by simp⟩

/-- Claim C8: an error raised by a response callback, or by the to of the
reaction, propagates unchanged through every component of the interception
layer -- through the ReactingCall invocation, through the descriptor
get/set/delete, and through the matching branch of AssertingReaction.to --
with no catching, wrapping, or substitution. -/
theorem C8_error_passthrough (c : ReactingCall) (d : ReactingDescriptor)
    (s : AssertingReaction) (args : List PyVal)
    (kwargs : List (String × PyVal)) (inst owner value : PyVal)
    (a ea : Action) (rest : List (Action × Except PyErr RVal)) (e : PyErr)
    (hc : c.reaction (Action.mk "__call__" c.name args kwargs) = Except.error e)
    (hg : d.reaction (Action.mk "__get__" (some d.name) [inst, owner] []) =
      Except.error e)
    (hs : d.reaction (Action.mk "__set__" (some d.name) [inst, value] []) =
      Except.error e)
    (hd : d.reaction (Action.mk "__delete__" (some d.name) [inst] []) =
      Except.error e)
    (hchain : s.chain = (ea, Except.error e) :: rest)
    (hnoauto : (s.auto_descriptors && isDescriptorOrigin a) = false)
    (hmatch : Action.pyEq a ea) :
    c.call args kwargs = Except.error e ∧
    d.get inst owner = Except.error e ∧
    d.set inst value = Except.error e ∧
    d.delete inst = Except.error e ∧
    (s.to a).1 = Except.error e := by
  refine ⟨hc, hg, hs, hd, ?_⟩
  unfold AssertingReaction.to
  simp [hnoauto, hchain, hmatch]

/-- Claim C10: with the identity-bypass flag disabled the representation
descriptor is exactly the plain descriptor interceptor for the name
__repr__ -- its get produces the get-origin Action over (instance, owner)
with empty kwargs, routes it to the reaction and returns the reaction
answer -- and the flag is consulted anew at each read, so for a fixed
already-built descriptor each read follows the current flag value. -/
theorem C10_repr_plain_equivalence (r : Reaction) (inst owner : PyVal) :
    ReprReactingDescriptor.get r false inst owner =
      (ReactingDescriptor.mk "__repr__" r).get inst owner ∧
    ReprReactingDescriptor.get r false inst owner =
      r (Action.mk "__get__" (some "__repr__") [inst, owner] []) ∧
    (∀ b : Bool, ReprReactingDescriptor.get r b inst owner =
      if b then
        Except.ok (RVal.strThunk (realReprString owner.clsName inst.pyId))
      else (ReactingDescriptor.mk "__repr__" r).get inst owner) := by
  refine ⟨rfl, rfl, fun b => ?_⟩
  cases b <;> rfl

/-- A sample call-origin action used by the concrete witnesses. -/
def actF : Action := Action.mk "__call__" (some "f") [] []

/-- A second sample call-origin action, differing from actF in its name. -/
def actG : Action := Action.mk "__call__" (some "g") [] []

/-- A sample callback outcome: return the Python integer five. -/
def cbFive : Except PyErr RVal := Except.ok (RVal.val (PyVal.int 5))

/-- A reaction that raises AttributeError on every action, as the throw
callbacks of the tests do. -/
def errReaction : Reaction := fun _ => Except.error PyErr.attributeError

theorem C2_first_deviation_mismatch_witness :
    ((AssertingReaction.init 0).addAll [(actF, cbFive)]).toAll [actG] =
      ([Except.error (PyErr.assertMismatch actF actG)],
        AssertingReaction.mk 0 [] false) :=
  C2_first_deviation_mismatch 0 [(actF, cbFive)] 0 (by decide) actG (by decide)

theorem C3_empty_queue_error_witness :
    (AssertingReaction.mk 7 [] true).to actF =
      (Except.error PyErr.indexEmptyQueue, AssertingReaction.mk 7 [] true) :=
  C3_empty_queue_error (AssertingReaction.mk 7 [] true) actF rfl (by decide)

theorem C4_auto_service_descriptor_witness :
    (AssertingReaction.mk 3 [] true).to (Action.mk "__get__" (some "foo") [] []) =
      (Except.ok (RVal.reactingCall (some "foo") 3),
        AssertingReaction.mk 3 [] true) ∧
    (AssertingReaction.mk 3 [(actF, cbFive)] true).to
        (Action.mk "__set__" (some "bar") [] []) =
      (Except.ok (RVal.reactingCall (some "bar") 3),
        AssertingReaction.mk 3 [(actF, cbFive)] true) :=
  ⟨C4_auto_service_descriptor (AssertingReaction.mk 3 [] true)
      (Action.mk "__get__" (some "foo") [] []) rfl (by decide),
    C4_auto_service_descriptor (AssertingReaction.mk 3 [(actF, cbFive)] true)
      (Action.mk "__set__" (some "bar") [] []) rfl (by decide)⟩

theorem C9_mismatch_pops_head_witness :
    (AssertingReaction.mk 1 [(actF, cbFive), (actG, cbFive)] false).to actG =
      (Except.error (PyErr.assertMismatch actF actG),
        AssertingReaction.mk 1 [(actG, cbFive)] false) ∧
    ((AssertingReaction.mk 1 [(actF, cbFive), (actG, cbFive)] false).to
        actG).2.chain.length + 1 =
      (AssertingReaction.mk 1 [(actF, cbFive), (actG, cbFive)] false).chain.length :=
  C9_mismatch_pops_head (AssertingReaction.mk 1 [(actF, cbFive), (actG, cbFive)] false)
    actF cbFive [(actG, cbFive)] actG rfl (by decide) (by decide)

theorem C8_error_passthrough_witness :
    (ReactingCall.mk (some "f") errReaction).call [] [] =
      Except.error PyErr.attributeError ∧
    (ReactingDescriptor.mk "foo" errReaction).get (PyVal.obj 1)
        (PyVal.cls "Observer" 2) = Except.error PyErr.attributeError ∧
    (ReactingDescriptor.mk "foo" errReaction).set (PyVal.obj 1) (PyVal.int 5) =
      Except.error PyErr.attributeError ∧
    (ReactingDescriptor.mk "foo" errReaction).delete (PyVal.obj 1) =
      Except.error PyErr.attributeError ∧
    ((AssertingReaction.mk 0 [(actF, Except.error PyErr.attributeError)]
        false).to actF).1 = Except.error PyErr.attributeError :=
  C8_error_passthrough (ReactingCall.mk (some "f") errReaction)
    (ReactingDescriptor.mk "foo" errReaction)
    (AssertingReaction.mk 0 [(actF, Except.error PyErr.attributeError)] false)
    [] [] (PyVal.obj 1) (PyVal.cls "Observer" 2) (PyVal.int 5) actF actF []
    PyErr.attributeError rfl rfl rfl rfl rfl rfl (Action.pyEq_refl actF)

end Taperecorder
